import Mathlib

/-!
Verification development for the Playback Performance Test Suite
(`media/playbackperfTest.js`).

The file shallowly embeds the suite generator: media stream descriptors,
the performance-metrics assertion helper, the three test-case generators
and the parameter loops that build the ordered list of test descriptors.
Runner interactions are modelled as explicit data (a list of runner calls),
and JS numbers appearing in ratios are modelled as rationals.
-/

/-- A snapshot of the video performance counters read through
`PerfTestUtil_` (`getTotalDecodedFrames` / `getTotalDroppedFrames`).
Frame counters reported by the host are non-negative integers. -/
structure Metrics where
  decoded : Nat
  dropped : Nat
deriving DecidableEq

/-- A call made by the suite into the external runner.
`checkLE` carries the compared value and bound as rationals, since the
ratio assertion divides two counters. -/
inductive RunnerCall where
  | fail (msg : String)
  | checkLE (value bound : ℚ) (desc : String)
  | checkEq (value expected : Nat) (desc : String)
  | succeed
deriving DecidableEq

/-- Modelled from the spec: the runner contract is external to this file
(spec section 6).  `checkLE` reports a failure exactly when the value
exceeds the bound ("fails if dropped frames exceed max, inclusive boundary
at max"), `checkEq` when the value differs from the expected one, and
`fail` always reports one; `succeed` never does. -/
def runnerCallFails : RunnerCall → Bool
  | RunnerCall.fail _ => true
  | RunnerCall.checkLE value bound _ => decide (bound < value)
  | RunnerCall.checkEq value expected _ => decide (value ≠ expected)
  | RunnerCall.succeed => false

/-- Effect of `PerfTestUtil_.assertAtLeastOneFrameDecoded`: the status
string it writes to the test prototype (if any), and the runner calls it
makes. -/
structure AssertEffect where
  status : Option String
  calls : List RunnerCall
deriving DecidableEq

/-- Embedding of `assertAtLeastOneFrameDecoded` (playbackperfTest.js lines 88-93):
when the total decoded frame count is ≤ 0 it sets the test status to
"Fail" and calls `runner.fail`; otherwise it does nothing. -/
def assertAtLeastOneFrameDecoded (m : Metrics) : AssertEffect :=
  if m.decoded ≤ 0 then
    { status := some "Fail",
      calls := [RunnerCall.fail "UserAgent was unable to render any frames."] }
  else
    { status := none, calls := [] }

/-- Embedding of `assertMaxDroppedFrames` (lines 95-100): checks
dropped ≤ maxDroppedFrames through `runner.checkLE`. -/
def assertMaxDroppedFrames (m : Metrics) (maxDroppedFrames : Nat) : List RunnerCall :=
  [RunnerCall.checkLE (m.dropped : ℚ) (maxDroppedFrames : ℚ) "Total dropped frames"]

/-- Embedding of `assertMaxDroppedFramesRatio` (lines 102-107): checks
dropped / decoded ≤ maxRatio through `runner.checkLE`.  The division is
unguarded in the source; the claims about it carry the precondition that
the decoded count is positive. -/
def assertMaxDroppedFramesRatio (m : Metrics) (maxRatio : ℚ) : List RunnerCall :=
  [RunnerCall.checkLE ((m.dropped : ℚ) / (m.decoded : ℚ)) maxRatio
    "Total dropped frames / total decoded frames"]

/-- Embedding of `defaultTestAssertion` (lines 270-273): assert at least one frame
decoded, then at most 1 dropped frame. -/
def defaultTestAssertion (m : Metrics) : List RunnerCall :=
  (assertAtLeastOneFrameDecoded m).calls ++ assertMaxDroppedFrames m 1

/-- Embedding of `HFRHighSpeedPlaybackTestAssertion` (lines 275-278): assert at least
one frame decoded, then a dropped/decoded ratio of at most 0.45. -/
def HFRHighSpeedPlaybackTestAssertion (m : Metrics) : List RunnerCall :=
  (assertAtLeastOneFrameDecoded m).calls ++ assertMaxDroppedFramesRatio m (45/100)

/-- A media stream descriptor.  Modelled from the spec: the `Media.*`
table lives in media.js, outside src/; the spec (section 3) describes a
descriptor as codec, resolution, frame rate, source URL (the mimetype is
irrelevant to the claims).  `resolution` and `fps` are the strings the
source reads through `videoStream.get` and concatenates into test names
(for example "1080p" and "30fps"). -/
structure MediaStream where
  codec : String
  resolution : String
  fps : String
  src : String
deriving DecidableEq

namespace Media

namespace VP9

def Webgl144p30fps : MediaStream :=
  { codec := "VP9", resolution := "144p", fps := "30fps", src := "vp9/webgl-144p-30fps.webm" }

def Webgl240p30fps : MediaStream :=
  { codec := "VP9", resolution := "240p", fps := "30fps", src := "vp9/webgl-240p-30fps.webm" }

def Webgl360p30fps : MediaStream :=
  { codec := "VP9", resolution := "360p", fps := "30fps", src := "vp9/webgl-360p-30fps.webm" }

def Webgl480p30fps : MediaStream :=
  { codec := "VP9", resolution := "480p", fps := "30fps", src := "vp9/webgl-480p-30fps.webm" }

def Webgl720p30fps : MediaStream :=
  { codec := "VP9", resolution := "720p", fps := "30fps", src := "vp9/webgl-720p-30fps.webm" }

def Webgl1080p30fps : MediaStream :=
  { codec := "VP9", resolution := "1080p", fps := "30fps", src := "vp9/webgl-1080p-30fps.webm" }

def Webgl1440p30fps : MediaStream :=
  { codec := "VP9", resolution := "1440p", fps := "30fps", src := "vp9/webgl-1440p-30fps.webm" }

def Webgl2160p30fps : MediaStream :=
  { codec := "VP9", resolution := "2160p", fps := "30fps", src := "vp9/webgl-2160p-30fps.webm" }

def Webgl720p60fps : MediaStream :=
  { codec := "VP9", resolution := "720p", fps := "60fps", src := "vp9/webgl-720p-60fps.webm" }

def Webgl1080p60fps : MediaStream :=
  { codec := "VP9", resolution := "1080p", fps := "60fps", src := "vp9/webgl-1080p-60fps.webm" }

def Webgl1440p60fps : MediaStream :=
  { codec := "VP9", resolution := "1440p", fps := "60fps", src := "vp9/webgl-1440p-60fps.webm" }

def Webgl2160p60fps : MediaStream :=
  { codec := "VP9", resolution := "2160p", fps := "60fps", src := "vp9/webgl-2160p-60fps.webm" }

end VP9

namespace H264

def Video1MB : MediaStream :=
  { codec := "H264", resolution := "240p", fps := "30fps", src := "h264/video-1mb.mp4" }

def Webgl144p15fps : MediaStream :=
  { codec := "H264", resolution := "144p", fps := "15fps", src := "h264/webgl-144p-15fps.mp4" }

def Webgl240p30fps : MediaStream :=
  { codec := "H264", resolution := "240p", fps := "30fps", src := "h264/webgl-240p-30fps.mp4" }

def Webgl360p30fps : MediaStream :=
  { codec := "H264", resolution := "360p", fps := "30fps", src := "h264/webgl-360p-30fps.mp4" }

def Webgl480p30fps : MediaStream :=
  { codec := "H264", resolution := "480p", fps := "30fps", src := "h264/webgl-480p-30fps.mp4" }

def Webgl720p30fps : MediaStream :=
  { codec := "H264", resolution := "720p", fps := "30fps", src := "h264/webgl-720p-30fps.mp4" }

def Webgl1080p30fps : MediaStream :=
  { codec := "H264", resolution := "1080p", fps := "30fps", src := "h264/webgl-1080p-30fps.mp4" }

def Webgl1440p30fps : MediaStream :=
  { codec := "H264", resolution := "1440p", fps := "30fps", src := "h264/webgl-1440p-30fps.mp4" }

def Webgl2160p30fps : MediaStream :=
  { codec := "H264", resolution := "2160p", fps := "30fps", src := "h264/webgl-2160p-30fps.mp4" }

def Webgl720p60fps : MediaStream :=
  { codec := "H264", resolution := "720p", fps := "60fps", src := "h264/webgl-720p-60fps.mp4" }

def Webgl1080p60fps : MediaStream :=
  { codec := "H264", resolution := "1080p", fps := "60fps", src := "h264/webgl-1080p-60fps.mp4" }

end H264

end Media

/-- Vertical height in lines of a resolution string such as "1080p":
the numeric value of its leading digits.  Helper for the modelled
`compareResolutions`. -/
def resolutionHeight (r : String) : Nat :=
  (r.data.takeWhile (fun c => c.isDigit)).foldl (fun n c => n * 10 + (c.toNat - 48)) 0

/-- Modelled from the spec: `util.compareResolutions` lives in util.js,
outside src/.  It compares two resolution strings by their numeric
vertical height, returning a positive, zero or negative number as the
first is greater than, equal to or smaller than the second. -/
def compareResolutions (r1 r2 : String) : Int :=
  (resolutionHeight r1 : Int) - (resolutionHeight r2 : Int)

/-- Embedding of `isOptionalPlayBackPerfStream` (lines 206-210): H264 streams whose
resolution is strictly greater than 1080p are optional. -/
def isOptionalPlayBackPerfStream (videoStream : MediaStream) : Bool :=
  videoStream.codec == "H264" &&
    decide (0 < compareResolutions videoStream.resolution "1080p")

/-- The mandatory value resolved by `createPlaybackPerfTest`
(lines 211-213): an explicitly supplied value wins; otherwise the test is
mandatory exactly when the stream is not an optional one.  `none` models
the JS `undefined` argument. -/
def resolvePlaybackPerfMandatory (videoStream : MediaStream) (mandatory : Option Bool) : Bool :=
  match mandatory with
  | some b => b
  | none => !isOptionalPlayBackPerfStream videoStream

/-- A playback speed from the `playbackSpeeds` table (line 264): its
numeric value and the string JS number-to-string conversion produces for
it inside the test name. -/
structure Speed where
  val : ℚ
  str : String
deriving DecidableEq

/-- Embedding of `playbackSpeeds` (line 264): [0.25, 0.5, 0.75, 1, 1.25, 1.5, 1.75, 2]. -/
def playbackSpeeds : List Speed :=
  [{ val := 1/4, str := "0.25" },
   { val := 1/2, str := "0.5" },
   { val := 3/4, str := "0.75" },
   { val := 1, str := "1" },
   { val := 5/4, str := "1.25" },
   { val := 3/2, str := "1.5" },
   { val := 7/4, str := "1.75" },
   { val := 2, str := "2" }]

/-- The name string built by `createPlaybackPerfTest` (lines 215-217):
"PlaybackPerf" + "." + codec + "." + resolution + fps + "@" + rate + "X". -/
def playbackPerfTestName (videoStream : MediaStream) (playbackRate : Speed) : String :=
  "PlaybackPerf" ++ "." ++ videoStream.codec ++ "." ++ videoStream.resolution ++
    videoStream.fps ++ "@" ++ playbackRate.str ++ "X"

/-- A test descriptor as set up by `createPerfTest` (lines 38-50): name,
position index, the three zero-initialised counters, category and the
optional mandatory flag (`none` when the field is left unset because the
argument was not a boolean). -/
structure PerfTest where
  name : String
  index : Nat
  passes : Nat
  failures : Nat
  timeouts : Nat
  category : String
  mandatory : Option Bool
deriving DecidableEq

/-- The arguments of one `createPerfTest` call: `none` in `category`
models an omitted argument, `none` in `mandatory` models a non-boolean
(undefined) argument. -/
structure PerfTestSpec where
  name : String
  category : Option String
  mandatory : Option Bool
deriving DecidableEq

/-- The JS defaulting `category || defaultCategory` (line 44): a missing
or empty category string falls back to the default. -/
def jsStringOr (category : Option String) (defaultCategory : String) : String :=
  match category with
  | some c => if c.isEmpty then defaultCategory else c
  | none => defaultCategory

/-- Embedding of `createPerfTest` (lines 38-50): appends to the running `tests` list a
descriptor whose index is the current length, whose counters are zero,
whose category defaults to "Playback Performance", and whose mandatory
field is set only when the argument is a boolean. -/
def createPerfTest (tests : List PerfTest) (s : PerfTestSpec) : List PerfTest :=
  tests ++ [{ name := s.name,
              index := tests.length,
              passes := 0,
              failures := 0,
              timeouts := 0,
              category := jsStringOr s.category "Playback Performance",
              mandatory := s.mandatory }]

/-- The descriptor-level arguments of one `createPlaybackPerfTest` call
(lines 202-217): name from the stream and rate, category passed through,
mandatory resolved from the optional override and the stream. -/
def createPlaybackPerfTestSpec (videoStream : MediaStream) (playbackRate : Speed)
    (category : String) (mandatory : Option Bool) : PerfTestSpec :=
  { name := playbackPerfTestName videoStream playbackRate,
    category := some category,
    mandatory := some (resolvePlaybackPerfMandatory videoStream mandatory) }

/-- Embedding of `mediaFormats` (lines 236-253): the 16 standard-frame-rate formats. -/
def mediaFormats : List MediaStream :=
  [Media.VP9.Webgl144p30fps,
   Media.VP9.Webgl240p30fps,
   Media.VP9.Webgl360p30fps,
   Media.VP9.Webgl480p30fps,
   Media.VP9.Webgl720p30fps,
   Media.VP9.Webgl1080p30fps,
   Media.VP9.Webgl1440p30fps,
   Media.VP9.Webgl2160p30fps,
   Media.H264.Webgl144p15fps,
   Media.H264.Webgl240p30fps,
   Media.H264.Webgl360p30fps,
   Media.H264.Webgl480p30fps,
   Media.H264.Webgl720p30fps,
   Media.H264.Webgl1080p30fps,
   Media.H264.Webgl1440p30fps,
   Media.H264.Webgl2160p30fps]

/-- Embedding of `mediaFormatsHfr` (lines 255-262): the 6 high-frame-rate formats. -/
def mediaFormatsHfr : List MediaStream :=
  [Media.VP9.Webgl720p60fps,
   Media.VP9.Webgl1080p60fps,
   Media.VP9.Webgl1440p60fps,
   Media.VP9.Webgl2160p60fps,
   Media.H264.Webgl720p60fps,
   Media.H264.Webgl1080p60fps]

/-- The descriptor specs created by the SFR loop (lines 281-290): outer
loop over speeds, inner loop over formats, category
"Playback Performance", no mandatory override. -/
def sfrSpecs : List PerfTestSpec :=
  (playbackSpeeds.map (fun s =>
    mediaFormats.map (fun f =>
      createPlaybackPerfTestSpec f s "Playback Performance" none))).flatten

/-- The assertion the HFR loop selects for a speed (lines 300-301):
the default one for speeds ≤ 1, the ratio one for higher speeds. -/
def hfrAssertionChoice (s : Speed) : Metrics → List RunnerCall :=
  if s.val ≤ 1 then defaultTestAssertion else HFRHighSpeedPlaybackTestAssertion

/-- The descriptor specs created by the HFR loop (lines 293-303):
category "HFR Playback Performance", no mandatory override. -/
def hfrSpecs : List PerfTestSpec :=
  (playbackSpeeds.map (fun s =>
    mediaFormatsHfr.map (fun f =>
      createPlaybackPerfTestSpec f s "HFR Playback Performance" none))).flatten

/-- The specs of the two validation tests (lines 116 and 164): both are
created without a mandatory argument. -/
def totalVideoFramesSpec : PerfTestSpec :=
  { name := "TotalVideoFrames", category := some "Media Playback Quality", mandatory := none }

def frameDropSpec : PerfTestSpec :=
  { name := "FrameDrop", category := some "Media Playback Quality", mandatory := none }

/-- All `createPerfTest` calls of the suite in source order: the
TotalVideoFrames validation test (line 157), the FrameDrop validation
test (line 195), then the SFR and HFR loops. -/
def suiteSpecs : List PerfTestSpec :=
  [totalVideoFramesSpec, frameDropSpec] ++ sfrSpecs ++ hfrSpecs

/-- The ordered `tests` list returned by `PlaybackperfTest` (line 306). -/
def suiteTests : List PerfTest :=
  suiteSpecs.foldl createPerfTest []

/-- The stream and expected literal frame count the TotalVideoFrames
validation test is configured with (line 157). -/
def totalVideoFramesConfig : MediaStream × Nat :=
  (Media.H264.Video1MB, 25)

/-- The handler the TotalVideoFrames test installs on the video "ended"
event (lines 135-141): check the decoded total against the expected
frames, then succeed. -/
def totalVideoFramesOnEnded (frames : Nat) (m : Metrics) : List RunnerCall :=
  [RunnerCall.checkEq m.decoded frames "playbackQuality.totalVideoFrames",
   RunnerCall.succeed]

/-- Outcome of the FrameDrop validation check that runs when the first
stream reaches 15 seconds (lines 174-187). -/
inductive FrameDropOutcome where
  | hardFail
  | succeed
  | streamFail
  | playSecondStream
deriving DecidableEq

/-- The decision made after measured playback of a stream in the
FrameDrop validation test (lines 177-186): the hard failure of
`assertAtLeastOneFrameDecoded` aborts first; then more than 2 dropped
frames succeeds; otherwise, when the current stream is already the second
(fallback) stream, compared by source URL, the runner fails; otherwise
the second stream is played. -/
def frameDropCheck (m : Metrics) (videoStream videoStream2 : MediaStream) : FrameDropOutcome :=
  if m.decoded ≤ 0 then FrameDropOutcome.hardFail
  else if 2 < m.dropped then FrameDropOutcome.succeed
  else if videoStream2.src == videoStream.src then FrameDropOutcome.streamFail
  else FrameDropOutcome.playSecondStream

/-- The two streams the FrameDrop validation test is configured with
(lines 195-196). -/
def frameDropConfig : MediaStream × MediaStream :=
  (Media.H264.Webgl1080p60fps, Media.VP9.Webgl2160p60fps)

/-- A playback performance test as generated by `createPlaybackPerfTest`
(lines 202-234), retaining the data the loops wire into it: the stream,
the playback rate, the category, the assertion function the `timeupdate`
handler applies after the stop condition, and the resolved mandatory
flag. -/
structure GeneratedPlaybackPerfTest where
  stream : MediaStream
  rate : Speed
  category : String
  assertTest : Metrics → List RunnerCall
  mandatory : Bool

/-- The SFR loop (lines 281-290): every speed crossed with every standard
format, always with `defaultTestAssertion`. -/
def sfrPlaybackPerfTests : List GeneratedPlaybackPerfTest :=
  (playbackSpeeds.map (fun s =>
    mediaFormats.map (fun f =>
      { stream := f, rate := s, category := "Playback Performance",
        assertTest := defaultTestAssertion,
        mandatory := resolvePlaybackPerfMandatory f none }))).flatten

/-- The HFR loop (lines 293-303): every speed crossed with every
high-frame-rate format; the assertion is the ternary of lines 300-301,
embedded as `hfrAssertionChoice`. -/
def hfrPlaybackPerfTests : List GeneratedPlaybackPerfTest :=
  (playbackSpeeds.map (fun s =>
    mediaFormatsHfr.map (fun f =>
      { stream := f, rate := s, category := "HFR Playback Performance",
        assertTest := hfrAssertionChoice s,
        mandatory := resolvePlaybackPerfMandatory f none }))).flatten

/-- Injective numeric code of a character list, used to reason about
uniqueness of the generated test names without repeated string
comparisons: the characters are the base-2^32 digits of the code below a
leading 1. -/
def encCharList (l : List Char) : Nat :=
  l.foldl (fun a c => a * 4294967296 + c.toNat) 1

/-- Injective numeric code of a string. -/
def encodeString (s : String) : Nat :=
  encCharList s.data

/-- The codes of the names of all generated test descriptors, in suite
order. -/
def suiteNameCodes : List Nat :=
  suiteTests.map (fun t => encodeString t.name)

/-- The descriptor the suite builds for the TotalVideoFrames validation
test: first in the list, counters zero, mandatory field unset. -/
def totalVideoFramesDescriptor : PerfTest :=
  { name := "TotalVideoFrames", index := 0, passes := 0, failures := 0,
    timeouts := 0, category := "Media Playback Quality", mandatory := none }

set_option maxRecDepth 20000
set_option maxHeartbeats 1600000

theorem encCharList_append (l : List Char) (c : Char) :
    encCharList (l ++ [c]) = encCharList l * 4294967296 + c.toNat := by
  simp [encCharList, List.foldl_append]

theorem one_le_encCharList_foldl (l : List Char) :
    ∀ a : Nat, 1 ≤ a → 1 ≤ l.foldl (fun a c => a * 4294967296 + c.toNat) a := by
  induction l with
  | nil => intro a h; simpa using h
  | cons c l ih =>
    intro a h
    simp only [List.foldl_cons]
    apply ih
    have h2 : a ≤ a * 4294967296 := Nat.le_mul_of_pos_right a (by norm_num)
    omega

theorem one_le_encCharList (l : List Char) : 1 ≤ encCharList l :=
  one_le_encCharList_foldl l 1 le_rfl

theorem char_toNat_lt (c : Char) : c.toNat < 4294967296 := by
  simpa [Char.toNat, UInt32.size] using UInt32.toNat_lt_size c.val

theorem char_toNat_inj {c d : Char} (h : c.toNat = d.toNat) : c = d := by
  have h2 := congrArg Char.ofNat h
  rwa [Char.ofNat_toNat, Char.ofNat_toNat] at h2

theorem encCharList_injective : Function.Injective encCharList := by
  intro l1 l2
  induction l1 using List.reverseRecOn generalizing l2 with
  | nil =>
    intro h
    cases l2 using List.reverseRecOn with
    | nil => rfl
    | append_singleton t c =>
      exfalso
      rw [encCharList_append] at h
      have h1 : (1 : Nat) = encCharList t * 4294967296 + c.toNat := h
      have h2 := one_le_encCharList t
      omega
  | append_singleton t1 c1 ih =>
    intro h
    cases l2 using List.reverseRecOn with
    | nil =>
      exfalso
      rw [encCharList_append] at h
      have h1 : encCharList t1 * 4294967296 + c1.toNat = (1 : Nat) := h
      have h2 := one_le_encCharList t1
      omega
    | append_singleton t2 c2 =>
      rw [encCharList_append, encCharList_append] at h
      have hc1 := char_toNat_lt c1
      have hc2 := char_toNat_lt c2
      have hkey : encCharList t1 = encCharList t2 ∧ c1.toNat = c2.toNat := by omega
      rw [ih hkey.1, char_toNat_inj hkey.2]

theorem encodeString_injective : Function.Injective encodeString := by
  intro s t h
  have hd : s.data = t.data := encCharList_injective h
  exact congrArg String.mk hd

theorem countP_beq_one_of_nodup_of_mem {a : Nat} :
    ∀ {l : List Nat}, l.Nodup → a ∈ l → l.countP (fun x => x == a) = 1 := by
  intro l
  induction l with
  | nil => intro _ hm; cases hm
  | cons b l ih =>
    intro hd hm
    have hbl : b ∉ l := (List.nodup_cons.mp hd).1
    have hdl : l.Nodup := (List.nodup_cons.mp hd).2
    rw [List.countP_cons]
    rcases List.mem_cons.mp hm with rfl | hmem
    · have hzero : l.countP (fun x => x == a) = 0 := by
        rw [List.countP_eq_zero]
        intro x hx
        simp only [beq_iff_eq]
        exact fun hxa => hbl (hxa ▸ hx)
      simp [hzero]
    · have hne : (b == a) = false :=
        beq_eq_false_iff_ne.mpr (fun hba => hbl (hba ▸ hmem))
      rw [ih hdl hmem, hne]
      simp

theorem suiteNameCodes_nodup : suiteNameCodes.Nodup := by decide

theorem expected_name_mem_codes : ∀ f ∈ mediaFormats, ∀ s ∈ playbackSpeeds,
    encodeString (playbackPerfTestName f s) ∈ suiteNameCodes := by decide

/-- C1: every entry of the 16-format standard table crossed with every
one of the 8 playback speeds yields exactly one test descriptor in the
suite whose name is the concatenation built by `playbackPerfTestName`,
namely "PlaybackPerf." + codec + "." + resolution + fps + "@" + speed
+ "X". -/
theorem playbackPerf_sfr_names_unique :
    ∀ f ∈ mediaFormats, ∀ s ∈ playbackSpeeds,
      suiteTests.countP (fun t => t.name == playbackPerfTestName f s) = 1 := by
  intro f hf s hs
  have htrans : suiteNameCodes.countP
        (fun c => c == encodeString (playbackPerfTestName f s))
      = suiteTests.countP (fun t => t.name == playbackPerfTestName f s) := by
    show (suiteTests.map (fun t => encodeString t.name)).countP _ = _
    rw [List.countP_map]
    apply List.countP_congr
    intro t _
    simp only [Function.comp, beq_iff_eq]
    exact ⟨fun h => encodeString_injective h, fun h => by rw [h]⟩
  rw [← htrans]
  exact countP_beq_one_of_nodup_of_mem suiteNameCodes_nodup
    (expected_name_mem_codes f hf s hs)

/-- Witness for C1 at the first table entry and the slowest speed. -/
theorem playbackPerf_sfr_names_unique_witness :
    suiteTests.countP (fun t =>
      t.name == playbackPerfTestName Media.VP9.Webgl144p30fps
        (playbackSpeeds.get ⟨0, by decide⟩)) = 1 :=
  playbackPerf_sfr_names_unique Media.VP9.Webgl144p30fps (by decide)
    (playbackSpeeds.get ⟨0, by decide⟩) (List.get_mem playbackSpeeds 0 (by decide))

theorem createPerfTest_wellIndexed (ts : List PerfTest) (s : PerfTestSpec)
    (h : ∀ i : Fin ts.length,
      (ts.get i).index = i.val ∧ (ts.get i).passes = 0 ∧
      (ts.get i).failures = 0 ∧ (ts.get i).timeouts = 0) :
    ∀ i : Fin (createPerfTest ts s).length,
      ((createPerfTest ts s).get i).index = i.val ∧
      ((createPerfTest ts s).get i).passes = 0 ∧
      ((createPerfTest ts s).get i).failures = 0 ∧
      ((createPerfTest ts s).get i).timeouts = 0 := by
  intro i
  have hlen : (createPerfTest ts s).length = ts.length + 1 := by
    simp [createPerfTest]
  rcases Nat.lt_or_ge i.val ts.length with hi | hi
  · have hget : (createPerfTest ts s).get i = ts.get ⟨i.val, hi⟩ := by
      simp only [createPerfTest, List.get_eq_getElem]
      exact List.getElem_append_left hi
    rw [hget]
    exact h ⟨i.val, hi⟩
  · have hiv : i.val = ts.length := by
      have h2 := i.isLt
      omega
    have hget : (createPerfTest ts s).get i =
        { name := s.name, index := ts.length, passes := 0, failures := 0,
          timeouts := 0, category := jsStringOr s.category "Playback Performance",
          mandatory := s.mandatory } := by
      simp only [createPerfTest, List.get_eq_getElem]
      exact List.getElem_concat_length ts _ i.val hiv _
    rw [hget]
    exact ⟨hiv.symm, rfl, rfl, rfl⟩

theorem foldl_createPerfTest_wellIndexed : ∀ (specs : List PerfTestSpec) (ts : List PerfTest),
    (∀ i : Fin ts.length,
      (ts.get i).index = i.val ∧ (ts.get i).passes = 0 ∧
      (ts.get i).failures = 0 ∧ (ts.get i).timeouts = 0) →
    ∀ i : Fin (specs.foldl createPerfTest ts).length,
      ((specs.foldl createPerfTest ts).get i).index = i.val ∧
      ((specs.foldl createPerfTest ts).get i).passes = 0 ∧
      ((specs.foldl createPerfTest ts).get i).failures = 0 ∧
      ((specs.foldl createPerfTest ts).get i).timeouts = 0 := by
  intro specs
  induction specs with
  | nil => intro ts h; exact h
  | cons s rest ih =>
    intro ts h
    exact ih (createPerfTest ts s) (createPerfTest_wellIndexed ts s h)

/-- C9: every descriptor in the suite list has an index equal to its
zero-based position (assigned as the length of the list at creation
time), and its passes, failures and timeouts counters are initialised
to 0. -/
theorem suiteTests_indices_and_counters :
    ∀ i : Fin suiteTests.length,
      (suiteTests.get i).index = i.val ∧ (suiteTests.get i).passes = 0 ∧
      (suiteTests.get i).failures = 0 ∧ (suiteTests.get i).timeouts = 0 :=
  foldl_createPerfTest_wellIndexed suiteSpecs [] (fun i => i.elim0)

/-- C2: a playback performance descriptor created without a mandatory
override has mandatory = false exactly when the stream codec is H264 and
its resolution compares strictly greater than 1080p, and mandatory =
true in every other case; an explicitly supplied boolean is used
unchanged. -/
theorem playbackPerf_mandatory_flag :
    ∀ (v : MediaStream) (s : Speed) (c : String),
      ((createPlaybackPerfTestSpec v s c none).mandatory = some false ↔
        (v.codec = "H264" ∧ 0 < compareResolutions v.resolution "1080p")) ∧
      ((createPlaybackPerfTestSpec v s c none).mandatory = some true ↔
        ¬(v.codec = "H264" ∧ 0 < compareResolutions v.resolution "1080p")) ∧
      (∀ b : Bool, (createPlaybackPerfTestSpec v s c (some b)).mandatory = some b) := by
  intro v s c
  refine ⟨?_, ?_, fun b => rfl⟩
  · show some (resolvePlaybackPerfMandatory v none) = some false ↔ _
    simp [resolvePlaybackPerfMandatory, isOptionalPlayBackPerfStream]
  · show some (resolvePlaybackPerfMandatory v none) = some true ↔ _
    simp [resolvePlaybackPerfMandatory, isOptionalPlayBackPerfStream]
    tauto

theorem defaultTestAssertion_ne_hfr :
    defaultTestAssertion ≠ HFRHighSpeedPlaybackTestAssertion := by
  intro h
  have h1 := congrFun h { decoded := 1, dropped := 0 }
  simp [defaultTestAssertion, HFRHighSpeedPlaybackTestAssertion,
    assertAtLeastOneFrameDecoded, assertMaxDroppedFrames,
    assertMaxDroppedFramesRatio] at h1

/-- C3: every high-frame-rate test selects the strict assertion
(`defaultTestAssertion`) exactly when its playback speed is at most 1 and
the ratio assertion (`HFRHighSpeedPlaybackTestAssertion`) exactly when
its speed exceeds 1, while every standard-frame-rate test carries the
strict assertion. -/
theorem hfr_assertion_selection :
    ∀ th ∈ hfrPlaybackPerfTests, ∀ tsf ∈ sfrPlaybackPerfTests,
      ((th.assertTest = defaultTestAssertion ↔ th.rate.val ≤ 1) ∧
       (th.assertTest = HFRHighSpeedPlaybackTestAssertion ↔ 1 < th.rate.val)) ∧
      tsf.assertTest = defaultTestAssertion := by
  intro th hth tsf htsf
  refine ⟨?_, ?_⟩
  · obtain ⟨l, hl, hthl⟩ := List.mem_flatten.mp hth
    obtain ⟨s, hs, rfl⟩ := List.mem_map.mp hl
    obtain ⟨f, hf, rfl⟩ := List.mem_map.mp hthl
    show (hfrAssertionChoice s = defaultTestAssertion ↔ s.val ≤ 1) ∧
      (hfrAssertionChoice s = HFRHighSpeedPlaybackTestAssertion ↔ 1 < s.val)
    unfold hfrAssertionChoice
    by_cases hle : s.val ≤ 1
    · rw [if_pos hle]
      refine ⟨⟨fun _ => hle, fun _ => rfl⟩, ?_, ?_⟩
      · intro hcontra
        exact absurd hcontra defaultTestAssertion_ne_hfr
      · intro hgt
        exact absurd hle (not_le.mpr hgt)
    · rw [if_neg hle]
      have hgt : 1 < s.val := lt_of_not_le hle
      refine ⟨⟨?_, ?_⟩, fun _ => hgt, fun _ => rfl⟩
      · intro hcontra
        exact absurd hcontra.symm defaultTestAssertion_ne_hfr
      · intro h1
        exact absurd h1 hle
  · obtain ⟨l, hl, htl⟩ := List.mem_flatten.mp htsf
    obtain ⟨s, hs, rfl⟩ := List.mem_map.mp hl
    obtain ⟨f, hf, rfl⟩ := List.mem_map.mp htl
    rfl

/-- Witness for C3: the first generated standard-frame-rate test carries
the strict assertion. -/
theorem hfr_assertion_selection_witness :
    (sfrPlaybackPerfTests.get ⟨0, by decide⟩).assertTest = defaultTestAssertion :=
  (hfr_assertion_selection
    (hfrPlaybackPerfTests.get ⟨0, by decide⟩)
    (List.get_mem hfrPlaybackPerfTests 0 (by decide))
    (sfrPlaybackPerfTests.get ⟨0, by decide⟩)
    (List.get_mem sfrPlaybackPerfTests 0 (by decide))).2

/-- C4: the dropped-frame assertion reports a failure exactly when the
dropped count strictly exceeds the bound, so the boundary value itself
passes; in particular with bound 1 it fails exactly for 2 or more
dropped frames. -/
theorem assertMaxDroppedFrames_boundary :
    ∀ (m : Metrics) (maxDroppedFrames : Nat),
      (((assertMaxDroppedFrames m maxDroppedFrames).any runnerCallFails = true) ↔
        maxDroppedFrames < m.dropped) ∧
      (((assertMaxDroppedFrames m 1).any runnerCallFails = true) ↔ 2 ≤ m.dropped) := by
  intro m maxD
  constructor
  · simp only [assertMaxDroppedFrames, List.any_cons, List.any_nil,
      runnerCallFails, Bool.or_false, decide_eq_true_eq]
    exact Nat.cast_lt
  · simp only [assertMaxDroppedFrames, List.any_cons, List.any_nil,
      runnerCallFails, Bool.or_false, decide_eq_true_eq]
    rw [Nat.cast_lt]
    omega

/-- C5: under the precondition that the decoded count is positive, the
ratio assertion reports a failure exactly when dropped/decoded exceeds
the bound, and passes exactly when dropped is at most bound times
decoded. -/
theorem assertMaxDroppedFramesRatio_spec :
    ∀ (m : Metrics) (maxRatio : ℚ), 0 < m.decoded →
      (((assertMaxDroppedFramesRatio m maxRatio).any runnerCallFails = true) ↔
        maxRatio < (m.dropped : ℚ) / (m.decoded : ℚ)) ∧
      (((assertMaxDroppedFramesRatio m maxRatio).any runnerCallFails = false) ↔
        (m.dropped : ℚ) ≤ maxRatio * (m.decoded : ℚ)) := by
  intro m maxRatio hpos
  have hq : (0 : ℚ) < (m.decoded : ℚ) := by exact_mod_cast hpos
  constructor
  · simp only [assertMaxDroppedFramesRatio, List.any_cons, List.any_nil,
      runnerCallFails, Bool.or_false, decide_eq_true_eq]
  · simp only [assertMaxDroppedFramesRatio, List.any_cons, List.any_nil,
      runnerCallFails, Bool.or_false, decide_eq_false_iff_not, not_lt]
    rw [div_le_iff₀ hq]

/-- Witness for C5 at one decoded and one dropped frame against the 0.45
bound. -/
theorem assertMaxDroppedFramesRatio_spec_witness :
    0 < ({ decoded := 1, dropped := 1 } : Metrics).decoded ∧
      ((assertMaxDroppedFramesRatio { decoded := 1, dropped := 1 } (45/100)).any
        runnerCallFails = true) :=
  ⟨by decide,
   ((assertMaxDroppedFramesRatio_spec { decoded := 1, dropped := 1 } (45/100)
      (by decide)).1).mpr (by norm_num)⟩

/-- C6: in the frame-drop validation check, once at least one frame was
decoded: more than 2 dropped frames succeeds; at most 2 dropped frames
with a current stream different (by source URL) from the fallback stream
advances to the second stream; and the runner failure happens exactly
when at most 2 frames were dropped and the current stream already is the
fallback stream. -/
theorem frameDrop_fallback_behavior :
    ∀ (m : Metrics) (videoStream videoStream2 : MediaStream), 1 ≤ m.decoded →
      (2 < m.dropped →
        frameDropCheck m videoStream videoStream2 = FrameDropOutcome.succeed) ∧
      (m.dropped ≤ 2 → videoStream2.src ≠ videoStream.src →
        frameDropCheck m videoStream videoStream2 = FrameDropOutcome.playSecondStream) ∧
      (frameDropCheck m videoStream videoStream2 = FrameDropOutcome.streamFail ↔
        (m.dropped ≤ 2 ∧ videoStream2.src = videoStream.src)) := by
  intro m s1 s2 hdec
  have h0 : ¬(m.decoded ≤ 0) := by omega
  refine ⟨?_, ?_, ?_⟩
  · intro hgt
    simp [frameDropCheck, h0, hgt]
  · intro hle hne
    have hsrc : (s2.src == s1.src) = false := beq_eq_false_iff_ne.mpr hne
    simp [frameDropCheck, h0, Nat.not_lt.mpr hle, hsrc]
  · constructor
    · intro heq
      by_cases hgt : 2 < m.dropped
      · simp [frameDropCheck, h0, hgt] at heq
      · by_cases hsrc : s2.src = s1.src
        · exact ⟨by omega, hsrc⟩
        · simp [frameDropCheck, h0, hgt, hsrc] at heq
    · rintro ⟨hle, hsrc⟩
      simp [frameDropCheck, h0, Nat.not_lt.mpr hle, hsrc]

/-- Witness for C6: ten decoded and one dropped frame on the configured
first stream, which is not the fallback stream, advances to the second
stream. -/
theorem frameDrop_fallback_behavior_witness :
    frameDropCheck { decoded := 10, dropped := 1 } frameDropConfig.1 frameDropConfig.2 =
      FrameDropOutcome.playSecondStream :=
  ((frameDrop_fallback_behavior { decoded := 10, dropped := 1 } frameDropConfig.1
      frameDropConfig.2 (by decide)).2.1) (by decide) (by decide)

/-- C7: the TotalVideoFrames validation test is configured with the 1MB
H264 sample and expected count 25; on the video ended event it emits the
checkEq of the decoded total against 25 followed by succeed, and that
check reports a failure exactly when the decoded total differs from
25. -/
theorem totalVideoFrames_checkEq_then_succeed :
    totalVideoFramesConfig.1 = Media.H264.Video1MB ∧
    ∀ m : Metrics,
      totalVideoFramesOnEnded totalVideoFramesConfig.2 m =
        [RunnerCall.checkEq m.decoded 25 "playbackQuality.totalVideoFrames",
         RunnerCall.succeed] ∧
      (((totalVideoFramesOnEnded totalVideoFramesConfig.2 m).any runnerCallFails = true) ↔
        m.decoded ≠ 25) := by
  refine ⟨rfl, fun m => ⟨rfl, ?_⟩⟩
  simp [totalVideoFramesOnEnded, runnerCallFails, totalVideoFramesConfig]

/-- C8: the at-least-one-frame assertion reports a hard runner failure
and sets the test status to Fail exactly when the decoded count is at
most 0, and performs no runner call at all exactly when at least one
frame was decoded. -/
theorem assertAtLeastOneFrameDecoded_spec :
    ∀ m : Metrics,
      (((assertAtLeastOneFrameDecoded m).calls.any runnerCallFails = true) ↔
        m.decoded ≤ 0) ∧
      (((assertAtLeastOneFrameDecoded m).status = some "Fail") ↔ m.decoded ≤ 0) ∧
      (((assertAtLeastOneFrameDecoded m).calls = []) ↔ 1 ≤ m.decoded) := by
  intro m
  by_cases h : m.decoded ≤ 0
  · refine ⟨?_, ?_, ?_⟩
    · simp [assertAtLeastOneFrameDecoded, h, runnerCallFails]
    · simp [assertAtLeastOneFrameDecoded, h]
    · simp [assertAtLeastOneFrameDecoded, h]
      omega
  · refine ⟨?_, ?_, ?_⟩
    · simp [assertAtLeastOneFrameDecoded, h, runnerCallFails]
    · simp [assertAtLeastOneFrameDecoded, h]
    · simp [assertAtLeastOneFrameDecoded, h]
      omega

/-- C10: a suite descriptor carries no mandatory field exactly for the
two validation tests (TotalVideoFrames and FrameDrop), which pass no
mandatory argument to createPerfTest; every other descriptor (the
PlaybackPerf tests) carries an explicit boolean mandatory field. -/
theorem mandatory_field_presence :
    ∀ t ∈ suiteTests,
      ((t.name = "TotalVideoFrames" ∨ t.name = "FrameDrop") → t.mandatory = none) ∧
      ((t.name ≠ "TotalVideoFrames" ∧ t.name ≠ "FrameDrop") → t.mandatory.isSome = true) := by
  have key : ∀ p ∈ suiteTests.map (fun t => (t.name, t.mandatory)),
      ((p.1 = "TotalVideoFrames" ∨ p.1 = "FrameDrop") → p.2 = none) ∧
      ((p.1 ≠ "TotalVideoFrames" ∧ p.1 ≠ "FrameDrop") → p.2.isSome = true) := by decide
  intro t ht
  exact key (t.name, t.mandatory) (List.mem_map_of_mem _ ht)

/-- Witness for C10: the TotalVideoFrames descriptor has its mandatory
field unset. -/
theorem mandatory_field_presence_witness :
    totalVideoFramesDescriptor.mandatory = none :=
  (mandatory_field_presence totalVideoFramesDescriptor (by decide)).1 (Or.inl rfl)
